import Mathlib

set_option maxRecDepth 100000

/-!
Verification development for the EchoVerse audiobook generator
(`app.py`, `core_echoverse.py`, `for_terminal.py`).

The Python sources are shallowly embedded: strings are `String`
(lists of characters compared by code point, as Python does),
the network is an oracle argument (the parsed outcome of each HTTP
call is an input), the clock is an argument (each `datetime.now`
read is a separate input), and filesystem effects are recorded as
an event trace.  Python `str.isalnum` and `str.strip` are modelled
on their ASCII behaviour, which covers every string the claims
mention.
-/

/-- The ASCII whitespace characters stripped by Python `str.strip()`
(space, tab, newline, carriage return, vertical tab, form feed). -/
def pyIsSpace (c : Char) : Bool :=
  c = ' ' || c = '\t' || c = '\n' || c = '\r' || c = Char.ofNat 11 || c = Char.ofNat 12

/-- Python `str.strip(chars)` on a character list: remove the longest
run of characters satisfying `p` from both ends. -/
def stripChars (p : Char → Bool) (l : List Char) : List Char :=
  List.rdropWhile p (l.dropWhile p)

/-- Python `str.strip(chars)` lifted to `String`. -/
def stripStr (p : Char → Bool) (s : String) : String :=
  ⟨stripChars p s.data⟩

/-- Python `str.strip()` (no argument: strip whitespace). -/
def pyStrip (s : String) : String :=
  stripStr pyIsSpace s

/-- The character class kept by the tone sanitizer:
`c.isalnum() or c in ("-", "_")` in the source. -/
def toneKeep (alnum : Char → Bool) (c : Char) : Bool :=
  alnum c || c = '-' || c = '_'

/-- The tone sanitizer shared (textually) by `app._safe_name`,
`core_echoverse.save_text` and `for_terminal.main`:
`"".join(c for c in s if c.isalnum() or c in ("-", "_")).strip("_")`,
parametric in the alphanumeric predicate. -/
def safe_name (alnum : Char → Bool) (s : String) : String :=
  stripStr (fun c => c = '_') ⟨s.data.filter (toneKeep alnum)⟩

/-- The tone sanitizer with Python `isalnum` instantiated on ASCII. -/
def pySafeName (s : String) : String :=
  safe_name Char.isAlphanum s

/-- Python `base_url.rstrip("/")`: remove trailing slashes. -/
def rstripSlash (s : String) : String :=
  ⟨List.rdropWhile (fun c => c = '/') s.data⟩

/-- Python `str.lower()` (ASCII behaviour). -/
def pyLower (s : String) : String :=
  ⟨s.data.map Char.toLower⟩

/-- Python `needle in hay` on character lists: contiguous substring test. -/
def isSubstring (needle : List Char) : List Char → Bool
  | [] => needle.isEmpty
  | c :: t => needle.isPrefixOf (c :: t) || isSubstring needle t

/-! ### The Ollama rewrite client

The two HTTP calls are oracles: `tags` is the parsed outcome of the
`GET /api/tags` call (`none` models a `requests.RequestException`,
otherwise the status code and the extracted model names), and
`GenOutcome` is the outcome of the `POST /api/generate` call. -/

/-- Outcome of the `POST /api/generate` call: either a network
exception with its message, or a response with status code, raw body
text, and the value of the `response` JSON field when present. -/
inductive GenOutcome where
  | exn : String → GenOutcome
  | resp : Nat → String → Option String → GenOutcome
deriving DecidableEq

/-- `_ollama_models` / `ollama_models`: list installed models via
`/api/tags`; a network error or a non-200 status yields `[]`. -/
def ollama_models (tags : Option (Nat × List String)) : List String :=
  match tags with
  | none => []
  | some (status, ms) => if status = 200 then ms else []

/-- Rendering of `", ".join(models) if models else "(none detected)"`. -/
def joinedModels (models : List String) : String :=
  if models.isEmpty then "(none detected)" else String.intercalate ", " models

instance {ε α : Type} [DecidableEq ε] [DecidableEq α] :
    DecidableEq (Except ε α) := fun a b =>
  match a, b with
  | .error e, .error f =>
    match decEq e f with
    | isTrue h => isTrue (by rw [h])
    | isFalse h => isFalse (by intro hh; cases hh; exact h rfl)
  | .error _, .ok _ => isFalse (by intro hh; cases hh)
  | .ok _, .error _ => isFalse (by intro hh; cases hh)
  | .ok x, .ok y =>
    match decEq x y with
    | isTrue h => isTrue (by rw [h])
    | isFalse h => isFalse (by intro hh; cases hh; exact h rfl)

/-- Result of a rewrite call: the returned text or the raised error
message, plus whether the `/api/generate` call was issued. -/
structure RewriteOut where
  result : Except String String
  generateCalled : Bool
deriving DecidableEq

/-- `rewrite_with_ollama` error for a network failure on the
generate call. -/
def unreachableMsg (url e : String) : String :=
  "Failed to reach Ollama at " ++ url ++ ". Error: " ++ e

/-- `rewrite_with_ollama` error for a 404 whose body mentions
"not found". -/
def notFound404Msg (model rawText : String) : String :=
  "Ollama says the model \x27" ++ model ++ "\x27 is not found.\n" ++
  "Run:  ollama pull " ++ model ++ "\n" ++
  "Raw response: " ++ rawText

/-- `rewrite_with_ollama` error for any other non-200 status. -/
def httpErrMsg (status : Nat) (rawText : String) : String :=
  "Ollama returned HTTP " ++ toString status ++ ": " ++ rawText

/-- `rewrite_with_ollama` error for a 200 response without a
`response` field; the payload argument stands for the (truncated)
dump of the parsed JSON. -/
def malformedMsg (payload : String) : String :=
  "Unexpected Ollama response: " ++ payload

namespace Core

/-- `core_echoverse.ensure_model_present` error message. -/
def modelNotFoundMsg (model baseUrl : String) (models : List String) : String :=
  "Ollama model \x27" ++ model ++ "\x27 not found at " ++ baseUrl ++ ".\n" ++
  "To fix:\n" ++
  "  1) Ensure Ollama is running.\n" ++
  "  2) Pull the model:\n" ++
  "     ollama pull " ++ model ++ "\n" ++
  "Installed models: " ++ joinedModels models

/-- `core_echoverse.rewrite_with_ollama`: check the model is
installed (raising the `ensure_model_present` error otherwise,
before any generate call), then issue the generate call and handle
its outcome exactly as the source does.  The prompt text only
affects the oracle, so it does not appear. -/
def rewrite_with_ollama (model baseUrl : String)
    (tags : Option (Nat × List String)) (gen : GenOutcome) : RewriteOut :=
  let models := ollama_models tags
  if model ∈ models then
    let url := rstripSlash baseUrl ++ "/api/generate"
    match gen with
    | .exn e => ⟨.error (unreachableMsg url e), true⟩
    | .resp status text rf =>
      if status ≠ 200 then
        if status = 404 && isSubstring "not found".data (pyLower text).data then
          ⟨.error (notFound404Msg model text), true⟩
        else
          ⟨.error (httpErrMsg status text), true⟩
      else
        match rf with
        | none => ⟨.error (malformedMsg text), true⟩
        | some r => ⟨.ok (pyStrip r), true⟩
  else
    ⟨.error (modelNotFoundMsg model baseUrl models), false⟩

end Core

namespace Term

/-- `for_terminal.ensure_model_present` error message (it differs
from the core variant by one extra remediation line and wording). -/
def modelNotFoundMsg (model baseUrl : String) (models : List String) : String :=
  "Ollama model \x27" ++ model ++ "\x27 not found at " ++ baseUrl ++ ".\n" ++
  "To fix:\n" ++
  "  1) Ensure Ollama is running.\n" ++
  "  2) Pull the model:\n" ++
  "     ollama pull " ++ model ++ "\n" ++
  "  3) Retry this script (or pass --model to use another installed model).\n" ++
  "Installed models I can see: " ++ joinedModels models

/-- `for_terminal.rewrite_with_ollama`: identical control flow to the
core variant, with the terminal model-not-found message. -/
def rewrite_with_ollama (model baseUrl : String)
    (tags : Option (Nat × List String)) (gen : GenOutcome) : RewriteOut :=
  let models := ollama_models tags
  if model ∈ models then
    let url := rstripSlash baseUrl ++ "/api/generate"
    match gen with
    | .exn e => ⟨.error (unreachableMsg url e), true⟩
    | .resp status text rf =>
      if status ≠ 200 then
        if status = 404 && isSubstring "not found".data (pyLower text).data then
          ⟨.error (notFound404Msg model text), true⟩
        else
          ⟨.error (httpErrMsg status text), true⟩
      else
        match rf with
        | none => ⟨.error (malformedMsg text), true⟩
        | some r => ⟨.ok (pyStrip r), true⟩
  else
    ⟨.error (modelNotFoundMsg model baseUrl models), false⟩

end Term

/-! ### Pipeline models

Filesystem effects and stage invocations are recorded as an event
trace, in program order. -/

/-- The three artifact kinds the pipeline can write. -/
inductive FileKind where
  | text : FileKind
  | audio : FileKind
  | meta : FileKind
deriving DecidableEq

/-- One observable event of a run: invoking the rewrite stage,
invoking the synthesis stage, or writing a file (name relative to
the outputs directory). -/
inductive Ev where
  | rewriteCall : Ev
  | ttsCall : Ev
  | write : FileKind → String → Ev
deriving DecidableEq

/-- The file writes of a trace, in order. -/
def writesOf (tr : List Ev) : List (FileKind × String) :=
  tr.filterMap fun e =>
    match e with
    | .write k n => some (k, n)
    | _ => none

/-- The metadata record written by the browser front-end
(`meta = {...}` in `app.py`); the sampling settings are carried
verbatim as rendered values. -/
structure MetaRec where
  timestamp : String
  tone : String
  voice : String
  model : String
  ollama_url : String
  temperature : String
  max_tokens : String
  text_file : String
  audio_file : String
deriving DecidableEq

/-- Outcome shown by the browser front-end: the `st.warning` for
empty input, the `st.error` for a failed stage, or the success
state with the metadata record. -/
inductive AppOutcome where
  | warned : String → AppOutcome
  | errored : String → AppOutcome
  | success : MetaRec → AppOutcome
deriving DecidableEq

/-- A browser-front-end run: its outcome and its event trace. -/
structure AppRun where
  outcome : AppOutcome
  trace : List Ev
deriving DecidableEq

/-- The `Generate Audiobook` handler of `app.py` (lines 152-192).
`ts1` is the value of the `datetime.now` read in the handler
(line 175) and `ts2` the value of the later read inside
`save_text`; `tts` is the outcome of `tts_with_gtts_to_bytes`. -/
def appGenerate (text tone voice model baseUrl temp maxTok : String)
    (tags : Option (Nat × List String)) (gen : GenOutcome)
    (tts : Except String String) (ts1 ts2 : String) : AppRun :=
  if pyStrip text = "" then
    ⟨.warned "Please provide some input text (upload a .txt or paste text).", []⟩
  else
    match (Core.rewrite_with_ollama model baseUrl tags gen).result with
    | .error e => ⟨.errored e, [.rewriteCall]⟩
    | .ok _rewritten =>
      match tts with
      | .error e => ⟨.errored e, [.rewriteCall, .ttsCall]⟩
      | .ok _bytes =>
        let toneSafe := pySafeName tone
        let txtName := "rewritten_" ++ toneSafe ++ "_" ++ ts2 ++ ".txt"
        let mp3Name := "speech_" ++ toneSafe ++ "_" ++ ts1 ++ ".mp3"
        let metaName := "meta_" ++ toneSafe ++ "_" ++ ts1 ++ ".json"
        let meta : MetaRec :=
          ⟨ts1, tone, voice, model, baseUrl, temp, maxTok,
            "outputs/" ++ txtName, "outputs/" ++ mp3Name⟩
        ⟨.success meta,
          [.rewriteCall, .ttsCall, .write .text txtName,
            .write .audio mp3Name, .write .meta metaName]⟩

/-- Where the terminal front-end gets its text: `--input-file` with a
missing file, `--input-file` with contents, or the interactive paste
loop (whose result `read_text_interactive` already strips). -/
inductive InputSrc where
  | file : String → Option String → InputSrc
  | interactive : String → InputSrc
deriving DecidableEq

/-- The gathered input text (lines 254-262 of `for_terminal.py`):
`none` when the input file is missing, otherwise the stripped text. -/
def gatherText : InputSrc → Option String
  | .file _ none => none
  | .file _ (some c) => some (pyStrip c)
  | .interactive raw => some (pyStrip raw)

/-- A terminal run: exit code, the message printed to stderr (if
any), and the event trace. -/
structure TermRun where
  exitCode : Nat
  err : Option String
  trace : List Ev
deriving DecidableEq

/-- `for_terminal.main` (lines 254-306).  `ts1` is the
`datetime.now` read inside `save_text` and `ts2` the later read in
`main` used for the MP3 name; `tts` is the outcome of the selected
synthesis strategy (gTTS or Piper), which writes the MP3 on
success.  The script falls off the end of `main` on success, so the
process exit code is 0. -/
def terminalMain (src : InputSrc) (tone model baseUrl : String)
    (tags : Option (Nat × List String)) (gen : GenOutcome)
    (tts : Except String Unit) (outPref : String)
    (ts1 ts2 : String) : TermRun :=
  match gatherText src with
  | none =>
    ⟨1, some ("Input file not found: " ++ pathOf src), []⟩
  | some inputText =>
    if inputText = "" then
      ⟨1, some "No input text provided.", []⟩
    else
      match (Term.rewrite_with_ollama model baseUrl tags gen).result with
      | .error e => ⟨2, some ("[ERROR] LLM rewrite failed: " ++ e), [.rewriteCall]⟩
      | .ok _rewritten =>
        let toneSafe := pySafeName tone
        let txtName := "rewritten_" ++ toneSafe ++ "_" ++ ts1 ++ ".txt"
        let mp3Name := outPref ++ "_" ++ toneSafe ++ "_" ++ ts2 ++ ".mp3"
        match tts with
        | .error e =>
          ⟨3, some ("[ERROR] TTS failed: " ++ e),
            [.rewriteCall, .write .text txtName, .ttsCall]⟩
        | .ok _ =>
          ⟨0, none,
            [.rewriteCall, .write .text txtName, .ttsCall,
              .write .audio mp3Name]⟩
where
  pathOf : InputSrc → String
    | .file p _ => p
    | .interactive _ => ""

/-! ### The past-narrations listing (`app.py` lines 219-237) -/

/-- Truth of the glob pattern `speech_*.mp3` on a filename (the `*`
matches any character run, including the empty one; no name shorter
than the two fixed pieces can match). -/
def globSpeechMp3 (name : String) : Bool :=
  ("speech_".data.isPrefixOf name.data) && (".mp3".data.isSuffixOf name.data)
    && decide (11 ≤ name.data.length)

/-- Python string comparison on character lists: lexicographic by
code point. -/
def lexLt : List Char → List Char → Bool
  | [], [] => false
  | [], _ :: _ => true
  | _ :: _, [] => false
  | a :: as, b :: bs =>
    if a.toNat < b.toNat then true
    else if b.toNat < a.toNat then false
    else lexLt as bs

/-- The comparison used to model `sorted(..., reverse=True)`:
`a` may precede `b` in the descending order. -/
def strGe (a b : String) : Bool :=
  ! lexLt a.data b.data

/-- `sorted(files, reverse=True)`: stable descending lexicographic
sort (insertion sort is stable, like the Python sort). -/
def sortDesc (files : List String) : List String :=
  List.insertionSort (fun a b => strGe a b = true) files

/-- `Path.stem` for a name ending in a 4-character suffix such as
`.mp3` (the only shape the listing applies it to). -/
def stemOf (name : String) : String :=
  ⟨name.data.take (name.data.length - 4)⟩

/-- Python `str.split("_")` on a character list (adjacent separators
produce empty segments, the empty string yields one empty segment). -/
def splitUnd : List Char → List (List Char)
  | [] => [[]]
  | c :: t =>
    if c = '_' then [] :: splitUnd t
    else
      match splitUnd t with
      | [] => [[c]]
      | h :: t2 => (c :: h) :: t2

/-- Python `str.split("_")` lifted to `String`. -/
def pySplitUnd (s : String) : List String :=
  (splitUnd s.data).map (fun l => ⟨l⟩)

/-- The metadata filename the listing derives for an audio file:
`meta_{"_".join(f.stem.split("_")[1:])}.json`. -/
def metaNameOf (mp3Name : String) : String :=
  "meta_" ++ String.intercalate "_" ((pySplitUnd (stemOf mp3Name)).drop 1) ++ ".json"

/-- The last `_`-separated token of the stem: the timestamp segment
of a well-formed artifact name. -/
def tsOfName (name : String) : String :=
  (pySplitUnd (stemOf name)).getLastD ""

/-- State of one metadata file on disk: missing, present but
unparsable JSON, or parsed. -/
inductive MetaFile where
  | absent : MetaFile
  | corrupt : MetaFile
  | parsed : MetaRec → MetaFile

/-- The caption data the listing shows for one audio file:
the parsed metadata when the file exists and parses, nothing
otherwise (the `except: pass` branch). -/
def metaBestEffort (store : String → MetaFile) (name : String) : Option MetaRec :=
  match store (metaNameOf name) with
  | .parsed m => some m
  | _ => none

/-- The `View Past Narrations` expander: glob, sort descending by
filename, truncate to 20, and pair each entry with its best-effort
metadata. -/
def pastNarrations (files : List String) (store : String → MetaFile) :
    List (String × Option MetaRec) :=
  ((sortDesc (files.filter globSpeechMp3)).take 20).map
    (fun n => (n, metaBestEffort store n))

/-- No leading and no trailing underscore (Bool form). -/
def noEdgeUnderscore (s : String) : Bool :=
  (s.data.head? != some '_') && (s.data.getLast? != some '_')

/-! ### Lemmas about stripping -/

theorem mem_of_mem_stripChars {p : Char → Bool} {l : List Char} {c : Char}
    (h : c ∈ stripChars p l) : c ∈ l := by
  unfold stripChars at h
  have h1 : c ∈ l.dropWhile p :=
    (List.rdropWhile_prefix p (l.dropWhile p)).sublist.subset h
  exact (List.dropWhile_suffix p).sublist.subset h1

theorem head?_stripChars_not {p : Char → Bool} {l : List Char} {c : Char}
    (h : (stripChars p l).head? = some c) : p c = false := by
  unfold stripChars at h
  obtain ⟨t, ht⟩ := List.rdropWhile_prefix p (l.dropWhile p)
  rcases hd : List.rdropWhile p (l.dropWhile p) with _ | ⟨a, as⟩
  · rw [hd] at h
    simp at h
  · rw [hd] at h ht
    simp only [List.head?_cons, Option.some_inj] at h
    rw [h] at ht
    have hne : l.dropWhile p ≠ [] := by
      rw [← ht]
      simp
    have hh2 : (l.dropWhile p).head? = some c := by
      rw [← ht]
      rfl
    have hhead : c = (l.dropWhile p).head hne := by
      have h3 := List.head?_eq_head hne
      rw [hh2] at h3
      exact Option.some_inj.mp h3
    have hnot := List.head_dropWhile_not p l hne
    rw [hhead]
    exact hnot

theorem getLast?_stripChars_not {p : Char → Bool} {l : List Char} {c : Char}
    (h : (stripChars p l).getLast? = some c) : p c = false := by
  unfold stripChars at h
  have hne : List.rdropWhile p (l.dropWhile p) ≠ [] := by
    intro hnil
    rw [hnil] at h
    simp at h
  have hlast := List.rdropWhile_last_not p (l.dropWhile p) hne
  rw [List.getLast?_eq_getLast_of_ne_nil hne, Option.some_inj] at h
  rw [h] at hlast
  simpa using hlast

theorem dropWhile_stripChars (p : Char → Bool) (l : List Char) :
    (stripChars p l).dropWhile p = stripChars p l := by
  rcases hd : stripChars p l with _ | ⟨a, as⟩
  · simp
  · have ha : p a = false :=
      head?_stripChars_not (show (stripChars p l).head? = some a by rw [hd]; rfl)
    rw [List.dropWhile_cons, ha]
    simp

theorem stripChars_idem (p : Char → Bool) (l : List Char) :
    stripChars p (stripChars p l) = stripChars p l := by
  have h1 := dropWhile_stripChars p l
  unfold stripChars at h1 ⊢
  rw [h1]
  exact List.rdropWhile_idempotent p _


/-! ### Lemmas about the descending filename order -/

theorem lexLt_false_trans : ∀ a b c : List Char,
    lexLt a b = false → lexLt b c = false → lexLt a c = false := by
  intro a
  induction a with
  | nil =>
    intro b c hab hbc
    cases b with
    | nil =>
      cases c with
      | nil => rfl
      | cons z zs => simp [lexLt] at hbc
    | cons y ys => simp [lexLt] at hab
  | cons x xs ih =>
    intro b c hab hbc
    cases b with
    | nil =>
      cases c with
      | nil => rfl
      | cons z zs => simp [lexLt] at hbc
    | cons y ys =>
      cases c with
      | nil => rfl
      | cons z zs =>
        simp only [lexLt] at hab hbc ⊢
        by_cases hxy : x.toNat < y.toNat
        · simp [hxy] at hab
        · by_cases hyz : y.toNat < z.toNat
          · simp [hyz] at hbc
          · by_cases hxz : x.toNat < z.toNat
            · omega
            · simp only [hxz, if_false]
              by_cases hzx : z.toNat < x.toNat
              · simp [hzx]
              · simp only [hzx, if_false]
                have hyx : ¬ y.toNat < x.toNat := by omega
                have hzy : ¬ z.toNat < y.toNat := by omega
                simp only [hxy, hyx, if_false] at hab
                simp only [hyz, hzy, if_false] at hbc
                exact ih ys zs hab hbc

theorem lexLt_asymm : ∀ a b : List Char, lexLt a b = true → lexLt b a = false := by
  intro a
  induction a with
  | nil =>
    intro b _
    cases b with
    | nil => rfl
    | cons y ys => rfl
  | cons x xs ih =>
    intro b h
    cases b with
    | nil => simp [lexLt] at h
    | cons y ys =>
      simp only [lexLt] at h ⊢
      by_cases hxy : x.toNat < y.toNat
      · have hyx : ¬ y.toNat < x.toNat := by omega
        simp [hxy, hyx]
      · by_cases hyx : y.toNat < x.toNat
        · simp [hxy, hyx] at h
        · simp only [hxy, hyx, if_false] at h ⊢
          exact ih ys h

theorem strGe_total (a b : String) : strGe a b = true ∨ strGe b a = true := by
  unfold strGe
  by_cases h : lexLt a.data b.data = true
  · right
    rw [lexLt_asymm _ _ h]
    rfl
  · left
    rw [Bool.not_eq_true] at h
    rw [h]
    rfl

theorem strGe_trans (a b c : String)
    (hab : strGe a b = true) (hbc : strGe b c = true) : strGe a c = true := by
  unfold strGe at hab hbc ⊢
  rw [Bool.not_eq_true'] at hab hbc ⊢
  exact lexLt_false_trans _ _ _ hab hbc

/-! ### Lemmas about the substring test -/

theorem isPrefixOf_append_self : ∀ (n b : List Char), n.isPrefixOf (n ++ b) = true
  | [], _ => by simp
  | c :: t, b => by
    rw [List.cons_append, List.isPrefixOf_cons₂_self]
    exact isPrefixOf_append_self t b

theorem isSubstring_self_append (n b : List Char) : isSubstring n (n ++ b) = true := by
  cases h : n ++ b with
  | nil =>
    have hn : n = [] := by
      cases n
      · rfl
      · simp at h
    unfold isSubstring
    rw [hn]
    rfl
  | cons c t =>
    unfold isSubstring
    rw [← h, isPrefixOf_append_self]
    rfl

theorem isSubstring_append (a n b : List Char) : isSubstring n (a ++ (n ++ b)) = true := by
  induction a with
  | nil => simpa using isSubstring_self_append n b
  | cons c t ih =>
    rw [List.cons_append]
    unfold isSubstring
    rw [ih, Bool.or_true]

/-! ### Properties of the tone sanitizer -/

theorem pySafeName_data (s : String) :
    (pySafeName s).data
      = stripChars (fun c => c = '_') (s.data.filter (toneKeep Char.isAlphanum)) := rfl

theorem pySafeName_keep {s : String} {c : Char} (hc : c ∈ (pySafeName s).data) :
    toneKeep Char.isAlphanum c = true := by
  rw [pySafeName_data] at hc
  exact (List.mem_filter.mp (mem_of_mem_stripChars hc)).2

theorem pySafeName_idem (s : String) : pySafeName (pySafeName s) = pySafeName s := by
  apply String.ext
  have hf : (pySafeName s).data.filter (toneKeep Char.isAlphanum) = (pySafeName s).data :=
    List.filter_eq_self.mpr fun c hc => pySafeName_keep hc
  show stripChars _ ((pySafeName s).data.filter _) = (pySafeName s).data
  rw [hf, pySafeName_data, stripChars_idem]

theorem pySafeName_noEdge (s : String) : noEdgeUnderscore (pySafeName s) = true := by
  unfold noEdgeUnderscore
  rw [Bool.and_eq_true]
  constructor
  · rw [bne_iff_ne]
    intro h
    rw [pySafeName_data] at h
    have hfal := head?_stripChars_not h
    simp at hfal
  · rw [bne_iff_ne]
    intro h
    rw [pySafeName_data] at h
    have hfal := getLast?_stripChars_not h
    simp at hfal

/-- C3 (amended): tone sanitization is deterministic (a pure function
of its argument) and idempotent; its output contains only characters
that are alphanumeric, a hyphen, or an underscore, with no leading or
trailing underscore; "Suspenseful!!" maps to "Suspenseful"; but
"Calm & Slow" maps to "CalmSlow", because disallowed characters
(spaces included) are dropped rather than replaced by underscores. -/
theorem tone_sanitization_amended (s : String) :
    pySafeName (pySafeName s) = pySafeName s
    ∧ (pySafeName s).data.all (toneKeep Char.isAlphanum) = true
    ∧ noEdgeUnderscore (pySafeName s) = true
    ∧ pySafeName "Suspenseful!!" = "Suspenseful"
    ∧ pySafeName "Calm & Slow" = "CalmSlow" := by
  refine ⟨pySafeName_idem s, ?_, pySafeName_noEdge s, by decide, by decide⟩
  rw [List.all_eq_true]
  intro c hc
  exact pySafeName_keep hc

/-- C3 counterexample: the claim says the tone "Calm & Slow" yields
the filename segment "Calm__Slow"; the sanitizer actually yields
"CalmSlow" (it drops the space and ampersand instead of replacing
them with underscores). -/
theorem tone_sanitization_counterexample :
    pySafeName "Calm & Slow" = "CalmSlow"
    ∧ (pySafeName "Calm & Slow" == "Calm__Slow") = false := by
  exact ⟨by decide, by decide⟩

theorem isSubstring_append_left (a n h : List Char)
    (hs : isSubstring n h = true) : isSubstring n (a ++ h) = true := by
  induction a with
  | nil => simpa using hs
  | cons c t ih =>
    rw [List.cons_append]
    unfold isSubstring
    rw [ih, Bool.or_true]

theorem isSubstring_refl (n : List Char) : isSubstring n n = true := by
  have := isSubstring_self_append n []
  simpa using this

/-! ### Properties of whitespace stripping -/

theorem pyStrip_data (s : String) :
    (pyStrip s).data = stripChars pyIsSpace s.data := rfl

theorem pyStrip_noLeadingSpace (s : String) :
    ((pyStrip s).data.head?.all fun c => ! pyIsSpace c) = true := by
  rcases hh : (pyStrip s).data.head? with _ | c
  · rfl
  · rw [pyStrip_data] at hh
    have hc := head?_stripChars_not hh
    simp [Option.all, hc]

theorem pyStrip_noTrailingSpace (s : String) :
    ((pyStrip s).data.getLast?.all fun c => ! pyIsSpace c) = true := by
  rcases hh : (pyStrip s).data.getLast? with _ | c
  · rfl
  · rw [pyStrip_data] at hh
    have hc := getLast?_stripChars_not hh
    simp [Option.all, hc]

/-! ### Claim theorems about the rewrite client -/

/-- C9: when the generate call returns status 200 and its JSON has a
`response` field, both rewrite clients return exactly that field with
leading and trailing whitespace removed, so the returned text never
has a whitespace character at either end. -/
theorem rewrite_returns_stripped (model baseUrl body r : String)
    (tags : Option (Nat × List String)) (h : model ∈ ollama_models tags) :
    (Core.rewrite_with_ollama model baseUrl tags (.resp 200 body (some r))).result
      = .ok (pyStrip r)
    ∧ (Term.rewrite_with_ollama model baseUrl tags (.resp 200 body (some r))).result
      = .ok (pyStrip r)
    ∧ ((pyStrip r).data.head?.all fun c => ! pyIsSpace c) = true
    ∧ ((pyStrip r).data.getLast?.all fun c => ! pyIsSpace c) = true := by
  refine ⟨?_, ?_, pyStrip_noLeadingSpace r, pyStrip_noTrailingSpace r⟩
  · simp [Core.rewrite_with_ollama, h]
  · simp [Term.rewrite_with_ollama, h]

/-- Witness for C9 at a concrete input. -/
theorem rewrite_returns_stripped_witness :
    ("m" ∈ ollama_models (some (200, ["m"])))
    ∧ (Core.rewrite_with_ollama "m" "u" (some (200, ["m"]))
        (.resp 200 "b" (some "  hi  "))).result = .ok (pyStrip "  hi  ") := by
  refine ⟨by decide, ?_⟩
  exact (rewrite_returns_stripped "m" "u" "b" "  hi  " (some (200, ["m"]))
    (by decide)).1

/-- C5: when the requested model is absent from the installed-model
list, both rewrite clients fail with the model-not-found message
without issuing the generate call; the message contains the missing
model name and the rendering of the installed-model list. -/
theorem model_not_found_before_generate (model baseUrl : String)
    (tags : Option (Nat × List String)) (gen : GenOutcome)
    (h : model ∉ ollama_models tags) :
    (Core.rewrite_with_ollama model baseUrl tags gen).generateCalled = false
    ∧ (Core.rewrite_with_ollama model baseUrl tags gen).result
        = .error (Core.modelNotFoundMsg model baseUrl (ollama_models tags))
    ∧ (Term.rewrite_with_ollama model baseUrl tags gen).generateCalled = false
    ∧ (Term.rewrite_with_ollama model baseUrl tags gen).result
        = .error (Term.modelNotFoundMsg model baseUrl (ollama_models tags))
    ∧ isSubstring model.data
        (Core.modelNotFoundMsg model baseUrl (ollama_models tags)).data = true
    ∧ isSubstring (joinedModels (ollama_models tags)).data
        (Core.modelNotFoundMsg model baseUrl (ollama_models tags)).data = true := by
  refine ⟨?_, ?_, ?_, ?_, ?_, ?_⟩
  · simp [Core.rewrite_with_ollama, h]
  · simp [Core.rewrite_with_ollama, h]
  · simp [Term.rewrite_with_ollama, h]
  · simp [Term.rewrite_with_ollama, h]
  · simp only [Core.modelNotFoundMsg, String.data_append, List.append_assoc]
    exact isSubstring_append _ _ _
  · simp only [Core.modelNotFoundMsg, String.data_append, List.append_assoc]
    repeat refine isSubstring_append_left _ _ _ ?_
    exact isSubstring_refl _

/-- Witness for C5 at a concrete input. -/
theorem model_not_found_before_generate_witness :
    (("gemma3:4b" : String) ∉ ollama_models (some (200, ["llama"])))
    ∧ (Core.rewrite_with_ollama "gemma3:4b" "u" (some (200, ["llama"]))
        (.resp 200 "b" (some "x"))).generateCalled = false := by
  refine ⟨by decide, ?_⟩
  exact (model_not_found_before_generate "gemma3:4b" "u" (some (200, ["llama"]))
    (.resp 200 "b" (some "x")) (by decide)).1

/-- C4 counterexample: with the endpoint fully unreachable (the tags
call raises a network exception), the rewrite stage does not fail
with a distinct unreachable-endpoint error carrying the cause; it
fails with the model-not-found message, which mentions neither the
underlying cause nor the "Failed to reach" wording. -/
theorem unreachable_endpoint_counterexample :
    (Core.rewrite_with_ollama "gemma3:4b" "http://localhost:11434" none
        (.exn "Connection refused")).result
      = .error (Core.modelNotFoundMsg "gemma3:4b" "http://localhost:11434" [])
    ∧ (Core.rewrite_with_ollama "gemma3:4b" "http://localhost:11434" none
        (.exn "Connection refused")).generateCalled = false
    ∧ isSubstring "Connection refused".data
        (Core.modelNotFoundMsg "gemma3:4b" "http://localhost:11434" []).data = false
    ∧ isSubstring "Failed to reach".data
        (Core.modelNotFoundMsg "gemma3:4b" "http://localhost:11434" []).data = false := by
  exact ⟨by decide, by decide, by decide, by decide⟩

/-- C4 (amended): when the endpoint is unreachable, the tags listing
swallows the network error and reports no installed models, so the
rewrite stage fails before the generate call with the model-not-found
error (whose installed-model list reads "(none detected)"); the
distinct "Failed to reach" error carrying the underlying cause is
raised only when the tags call succeeds and the generate call then
hits the network failure.  Either way the job fails at the Rewriting
state and no text, audio, or metadata file is created. -/
theorem unreachable_endpoint_amended
    (model baseUrl e raw tone voice temp maxTok outPref ts1 ts2 : String)
    (ms : List String) (hm : model ∈ ms) (hraw : pyStrip raw ≠ "") :
    (Core.rewrite_with_ollama model baseUrl none (.exn e)).result
      = .error (Core.modelNotFoundMsg model baseUrl [])
    ∧ (Core.rewrite_with_ollama model baseUrl none (.exn e)).generateCalled = false
    ∧ joinedModels [] = "(none detected)"
    ∧ (Core.rewrite_with_ollama model baseUrl (some (200, ms)) (.exn e)).result
      = .error (unreachableMsg (rstripSlash baseUrl ++ "/api/generate") e)
    ∧ isSubstring e.data
        (unreachableMsg (rstripSlash baseUrl ++ "/api/generate") e).data = true
    ∧ (appGenerate raw tone voice model baseUrl temp maxTok none (.exn e)
        (.ok "") ts1 ts2).outcome = .errored (Core.modelNotFoundMsg model baseUrl [])
    ∧ (appGenerate raw tone voice model baseUrl temp maxTok none (.exn e)
        (.ok "") ts1 ts2).trace = [.rewriteCall]
    ∧ (terminalMain (.interactive raw) tone model baseUrl none (.exn e)
        (.ok ()) outPref ts1 ts2).exitCode = 2
    ∧ (terminalMain (.interactive raw) tone model baseUrl none (.exn e)
        (.ok ()) outPref ts1 ts2).trace = [.rewriteCall] := by
  refine ⟨?_, ?_, rfl, ?_, ?_, ?_, ?_, ?_, ?_⟩
  · simp [Core.rewrite_with_ollama, ollama_models]
  · simp [Core.rewrite_with_ollama, ollama_models]
  · simp [Core.rewrite_with_ollama, ollama_models, hm]
  · simp only [unreachableMsg, String.data_append, List.append_assoc]
    repeat refine isSubstring_append_left _ _ _ ?_
    exact isSubstring_refl _
  · simp [appGenerate, Core.rewrite_with_ollama, ollama_models, hraw]
  · simp [appGenerate, Core.rewrite_with_ollama, ollama_models, hraw]
  · simp [terminalMain, gatherText, Term.rewrite_with_ollama, ollama_models, hraw]
  · simp [terminalMain, gatherText, Term.rewrite_with_ollama, ollama_models, hraw]

/-- Witness for C4 (amended) at a concrete input. -/
theorem unreachable_endpoint_amended_witness :
    (("m" : String) ∈ ["m"]) ∧ pyStrip "hello" ≠ ""
    ∧ (terminalMain (.interactive "hello") "Calm" "m" "u" none (.exn "boom")
        (.ok ()) "speech" "T1" "T2").exitCode = 2 := by
  refine ⟨by decide, by decide, ?_⟩
  exact (unreachable_endpoint_amended "m" "u" "boom" "hello" "Calm" "v" "0.7"
    "512" "speech" "T1" "T2" ["m"] (by decide) (by decide)).2.2.2.2.2.2.2.1

/-! ### Claim theorems about the pipeline runs -/

/-- C2 counterexample: in a terminal run whose synthesis stage fails,
the text file has already been written when the synthesis stage is
invoked (the write event precedes the ttsCall event), contradicting
the claim that persistence is entered only after synthesis success. -/
theorem text_written_before_synthesis_counterexample :
    (terminalMain (.interactive "hello") "Calm" "m" "u" (some (200, ["m"]))
        (.resp 200 "b" (some "out")) (.error "boom") "speech" "T1" "T2").trace
      = [.rewriteCall, .write .text "rewritten_Calm_T1.txt", .ttsCall]
    ∧ ((terminalMain (.interactive "hello") "Calm" "m" "u" (some (200, ["m"]))
        (.resp 200 "b" (some "out")) (.error "boom") "speech" "T1" "T2").trace.takeWhile
          (fun ev => ev != Ev.ttsCall)).contains
        (.write .text "rewritten_Calm_T1.txt") = true := by
  exact ⟨by decide, by decide⟩

/-- C2 (amended): when the rewrite stage succeeds and the synthesis
stage then fails, no audio file and no metadata file is created in
either front-end.  In the browser front-end nothing at all has been
written when synthesis is invoked; the terminal front-end, however,
writes the text file before invoking synthesis, so that file remains
on disk. -/
theorem synthesis_failure_amended
    (raw tone voice model baseUrl temp maxTok outPref ts1 ts2 e rwText : String)
    (tags : Option (Nat × List String)) (gen : GenOutcome)
    (hraw : pyStrip raw ≠ "")
    (hrwA : (Core.rewrite_with_ollama model baseUrl tags gen).result = .ok rwText)
    (hrwT : (Term.rewrite_with_ollama model baseUrl tags gen).result = .ok rwText) :
    (appGenerate raw tone voice model baseUrl temp maxTok tags gen
        (.error e) ts1 ts2).trace = [.rewriteCall, .ttsCall]
    ∧ writesOf (appGenerate raw tone voice model baseUrl temp maxTok tags gen
        (.error e) ts1 ts2).trace = []
    ∧ (appGenerate raw tone voice model baseUrl temp maxTok tags gen
        (.error e) ts1 ts2).outcome = .errored e
    ∧ (terminalMain (.interactive raw) tone model baseUrl tags gen
        (.error e) outPref ts1 ts2).trace
      = [.rewriteCall,
         .write .text ("rewritten_" ++ pySafeName tone ++ "_" ++ ts1 ++ ".txt"),
         .ttsCall]
    ∧ writesOf (terminalMain (.interactive raw) tone model baseUrl tags gen
        (.error e) outPref ts1 ts2).trace
      = [(FileKind.text, "rewritten_" ++ pySafeName tone ++ "_" ++ ts1 ++ ".txt")]
    ∧ (terminalMain (.interactive raw) tone model baseUrl tags gen
        (.error e) outPref ts1 ts2).exitCode = 3 := by
  refine ⟨?_, ?_, ?_, ?_, ?_, ?_⟩
  · simp [appGenerate, hraw, hrwA]
  · simp [appGenerate, hraw, hrwA, writesOf]
  · simp [appGenerate, hraw, hrwA]
  · simp [terminalMain, gatherText, hraw, hrwT]
  · simp [terminalMain, gatherText, hraw, hrwT, writesOf]
  · simp [terminalMain, gatherText, hraw, hrwT]

/-- Witness for C2 (amended) at a concrete input. -/
theorem synthesis_failure_amended_witness :
    pyStrip "hello" ≠ ""
    ∧ (Core.rewrite_with_ollama "m" "u" (some (200, ["m"]))
        (.resp 200 "b" (some "out"))).result = .ok "out"
    ∧ (Term.rewrite_with_ollama "m" "u" (some (200, ["m"]))
        (.resp 200 "b" (some "out"))).result = .ok "out"
    ∧ (terminalMain (.interactive "hello") "Calm" "m" "u" (some (200, ["m"]))
        (.resp 200 "b" (some "out")) (.error "boom") "speech" "T1" "T2").exitCode = 3 := by
  refine ⟨by decide, by decide, by decide, ?_⟩
  exact (synthesis_failure_amended "hello" "Calm" "v" "m" "u" "0.7" "512"
    "speech" "T1" "T2" "boom" "out" (some (200, ["m"])) (.resp 200 "b" (some "out"))
    (by decide) (by decide) (by decide)).2.2.2.2.2

/-- C1 counterexample: a successful terminal run writes only a text
file and an audio file and no metadata file at all; moreover, when
the clock crosses a second boundary between the two timestamp reads,
the text file and the audio file do not even share a timestamp key. -/
theorem success_artifacts_counterexample :
    (terminalMain (.interactive "hello") "Calm" "m" "u" (some (200, ["m"]))
        (.resp 200 "b" (some "out")) (.ok ()) "speech"
        "20250101-000000" "20250101-000001").trace
      = [.rewriteCall, .write .text "rewritten_Calm_20250101-000000.txt",
         .ttsCall, .write .audio "speech_Calm_20250101-000001.mp3"]
    ∧ (writesOf (terminalMain (.interactive "hello") "Calm" "m" "u" (some (200, ["m"]))
        (.resp 200 "b" (some "out")) (.ok ()) "speech"
        "20250101-000000" "20250101-000001").trace).map Prod.fst
      = [FileKind.text, FileKind.audio]
    ∧ ((writesOf (terminalMain (.interactive "hello") "Calm" "m" "u" (some (200, ["m"]))
        (.resp 200 "b" (some "out")) (.ok ()) "speech"
        "20250101-000000" "20250101-000001").trace).map Prod.fst).contains
        FileKind.meta = false
    ∧ (tsOfName "rewritten_Calm_20250101-000000.txt"
        == tsOfName "speech_Calm_20250101-000001.mp3") = false := by
  exact ⟨by decide, by decide, by decide, by decide⟩

/-- C1 (amended): a successful browser run writes exactly one text
file, one audio file and one metadata file, in that order; the audio
and metadata files share the tone+timestamp key of the first clock
read, the text file uses the second clock read, so all three share
one key exactly when the two reads return the same second; the
metadata record paths are the outputs-directory paths of the files
just written.  A successful terminal run writes exactly one text
file and one audio file (again on the two separate clock reads) and
no metadata file. -/
theorem success_artifacts_amended
    (raw tone voice model baseUrl temp maxTok outPref ts1 ts2 bytes rwText : String)
    (tags : Option (Nat × List String)) (gen : GenOutcome)
    (hraw : pyStrip raw ≠ "")
    (hrwA : (Core.rewrite_with_ollama model baseUrl tags gen).result = .ok rwText)
    (hrwT : (Term.rewrite_with_ollama model baseUrl tags gen).result = .ok rwText) :
    (appGenerate raw tone voice model baseUrl temp maxTok tags gen
        (.ok bytes) ts1 ts2).outcome
      = .success ⟨ts1, tone, voice, model, baseUrl, temp, maxTok,
          "outputs/" ++ ("rewritten_" ++ pySafeName tone ++ "_" ++ ts2 ++ ".txt"),
          "outputs/" ++ ("speech_" ++ pySafeName tone ++ "_" ++ ts1 ++ ".mp3")⟩
    ∧ writesOf (appGenerate raw tone voice model baseUrl temp maxTok tags gen
        (.ok bytes) ts1 ts2).trace
      = [(FileKind.text, "rewritten_" ++ pySafeName tone ++ "_" ++ ts2 ++ ".txt"),
         (FileKind.audio, "speech_" ++ pySafeName tone ++ "_" ++ ts1 ++ ".mp3"),
         (FileKind.meta, "meta_" ++ pySafeName tone ++ "_" ++ ts1 ++ ".json")]
    ∧ (ts2 = ts1 →
        writesOf (appGenerate raw tone voice model baseUrl temp maxTok tags gen
            (.ok bytes) ts1 ts2).trace
          = [(FileKind.text, "rewritten_" ++ pySafeName tone ++ "_" ++ ts1 ++ ".txt"),
             (FileKind.audio, "speech_" ++ pySafeName tone ++ "_" ++ ts1 ++ ".mp3"),
             (FileKind.meta, "meta_" ++ pySafeName tone ++ "_" ++ ts1 ++ ".json")])
    ∧ writesOf (terminalMain (.interactive raw) tone model baseUrl tags gen
        (.ok ()) outPref ts1 ts2).trace
      = [(FileKind.text, "rewritten_" ++ pySafeName tone ++ "_" ++ ts1 ++ ".txt"),
         (FileKind.audio, outPref ++ "_" ++ pySafeName tone ++ "_" ++ ts2 ++ ".mp3")]
    ∧ (terminalMain (.interactive raw) tone model baseUrl tags gen
        (.ok ()) outPref ts1 ts2).exitCode = 0 := by
  refine ⟨?_, ?_, ?_, ?_, ?_⟩
  · simp [appGenerate, hraw, hrwA]
  · simp [appGenerate, hraw, hrwA, writesOf]
  · intro hts
    subst hts
    simp [appGenerate, hraw, hrwA, writesOf]
  · simp [terminalMain, gatherText, hraw, hrwT, writesOf]
  · simp [terminalMain, gatherText, hraw, hrwT]

/-- Witness for C1 (amended) at a concrete input. -/
theorem success_artifacts_amended_witness :
    pyStrip "hello" ≠ ""
    ∧ (Core.rewrite_with_ollama "m" "u" (some (200, ["m"]))
        (.resp 200 "b" (some "out"))).result = .ok "out"
    ∧ (Term.rewrite_with_ollama "m" "u" (some (200, ["m"]))
        (.resp 200 "b" (some "out"))).result = .ok "out"
    ∧ (terminalMain (.interactive "hello") "Calm" "m" "u" (some (200, ["m"]))
        (.resp 200 "b" (some "out")) (.ok ()) "speech" "T1" "T2").exitCode = 0 := by
  refine ⟨by decide, by decide, by decide, ?_⟩
  exact (success_artifacts_amended "hello" "Calm" "v" "m" "u" "0.7" "512"
    "speech" "T1" "T2" "bytes" "out" (some (200, ["m"])) (.resp 200 "b" (some "out"))
    (by decide) (by decide) (by decide)).2.2.2.2

/-- C6: empty or whitespace-only input is rejected during validation:
the browser front-end shows the warning and runs nothing, the
terminal front-end prints its message to stderr and exits with
code 1; neither ever invokes the rewrite or synthesis stage and
neither writes any file (the trace is empty). -/
theorem empty_input_rejected
    (text tone voice model baseUrl temp maxTok outPref path ts1 ts2 : String)
    (tags : Option (Nat × List String)) (gen : GenOutcome)
    (ttsA : Except String String) (ttsT : Except String Unit)
    (h : pyStrip text = "") :
    (appGenerate text tone voice model baseUrl temp maxTok tags gen
        ttsA ts1 ts2).outcome
      = .warned "Please provide some input text (upload a .txt or paste text)."
    ∧ (appGenerate text tone voice model baseUrl temp maxTok tags gen
        ttsA ts1 ts2).trace = []
    ∧ (terminalMain (.interactive text) tone model baseUrl tags gen
        ttsT outPref ts1 ts2).exitCode = 1
    ∧ (terminalMain (.interactive text) tone model baseUrl tags gen
        ttsT outPref ts1 ts2).err = some "No input text provided."
    ∧ (terminalMain (.interactive text) tone model baseUrl tags gen
        ttsT outPref ts1 ts2).trace = []
    ∧ (terminalMain (.file path (some text)) tone model baseUrl tags gen
        ttsT outPref ts1 ts2).exitCode = 1
    ∧ (terminalMain (.file path (some text)) tone model baseUrl tags gen
        ttsT outPref ts1 ts2).trace = [] := by
  refine ⟨?_, ?_, ?_, ?_, ?_, ?_, ?_⟩ <;>
    simp [appGenerate, terminalMain, gatherText, h]

/-- Witness for C6 at a concrete whitespace-only input. -/
theorem empty_input_rejected_witness :
    pyStrip "   " = ""
    ∧ (terminalMain (.interactive "   ") "Calm" "m" "u" (some (200, ["m"]))
        (.resp 200 "b" (some "out")) (.ok ()) "speech" "T1" "T2").exitCode = 1 := by
  refine ⟨by decide, ?_⟩
  exact (empty_input_rejected "   " "Calm" "v" "m" "u" "0.7" "512" "speech" "p"
    "T1" "T2" (some (200, ["m"])) (.resp 200 "b" (some "out")) (.ok "bytes")
    (.ok ()) (by decide)).2.2.1

/-- C8: the terminal front-end exits with code 1 when the input file
is missing or the gathered input text is empty, code 2 when the
rewrite stage fails, code 3 when the synthesis stage fails, and
code 0 on success. -/
theorem terminal_exit_codes
    (tone model baseUrl outPref path ts1 ts2 : String)
    (tags : Option (Nat × List String)) (gen : GenOutcome)
    (tts : Except String Unit) :
    (terminalMain (.file path none) tone model baseUrl tags gen
        tts outPref ts1 ts2).exitCode = 1
    ∧ (∀ raw, pyStrip raw = "" →
        (terminalMain (.interactive raw) tone model baseUrl tags gen
            tts outPref ts1 ts2).exitCode = 1
        ∧ (terminalMain (.file path (some raw)) tone model baseUrl tags gen
            tts outPref ts1 ts2).exitCode = 1)
    ∧ (∀ raw e, pyStrip raw ≠ "" →
        (Term.rewrite_with_ollama model baseUrl tags gen).result = .error e →
        (terminalMain (.interactive raw) tone model baseUrl tags gen
            tts outPref ts1 ts2).exitCode = 2)
    ∧ (∀ raw rwText e, pyStrip raw ≠ "" →
        (Term.rewrite_with_ollama model baseUrl tags gen).result = .ok rwText →
        tts = .error e →
        (terminalMain (.interactive raw) tone model baseUrl tags gen
            tts outPref ts1 ts2).exitCode = 3)
    ∧ (∀ raw rwText, pyStrip raw ≠ "" →
        (Term.rewrite_with_ollama model baseUrl tags gen).result = .ok rwText →
        tts = .ok () →
        (terminalMain (.interactive raw) tone model baseUrl tags gen
            tts outPref ts1 ts2).exitCode = 0) := by
  refine ⟨by simp [terminalMain, gatherText], ?_, ?_, ?_, ?_⟩
  · intro raw h
    constructor <;> simp [terminalMain, gatherText, h]
  · intro raw e h hrw
    simp [terminalMain, gatherText, h, hrw]
  · intro raw rwText e h hrw hts
    subst hts
    simp [terminalMain, gatherText, h, hrw]
  · intro raw rwText h hrw hts
    subst hts
    simp [terminalMain, gatherText, h, hrw]

/-- Witness for C8: all four exit codes at concrete inputs. -/
theorem terminal_exit_codes_witness :
    (terminalMain (.file "f.txt" none) "Calm" "m" "u" (some (200, ["m"]))
        (.resp 200 "b" (some "out")) (.ok ()) "speech" "T1" "T2").exitCode = 1
    ∧ (terminalMain (.interactive "  ") "Calm" "m" "u" (some (200, ["m"]))
        (.resp 200 "b" (some "out")) (.ok ()) "speech" "T1" "T2").exitCode = 1
    ∧ (terminalMain (.interactive "hi") "Calm" "m" "u" none (.exn "x")
        (.ok ()) "speech" "T1" "T2").exitCode = 2
    ∧ (terminalMain (.interactive "hi") "Calm" "m" "u" (some (200, ["m"]))
        (.resp 200 "b" (some "out")) (.error "boom") "speech" "T1" "T2").exitCode = 3
    ∧ (terminalMain (.interactive "hi") "Calm" "m" "u" (some (200, ["m"]))
        (.resp 200 "b" (some "out")) (.ok ()) "speech" "T1" "T2").exitCode = 0 := by
  refine ⟨?_, ?_, ?_, ?_, ?_⟩
  · exact (terminal_exit_codes "Calm" "m" "u" "speech" "f.txt" "T1" "T2"
      (some (200, ["m"])) (.resp 200 "b" (some "out")) (.ok ())).1
  · exact ((terminal_exit_codes "Calm" "m" "u" "speech" "f.txt" "T1" "T2"
      (some (200, ["m"])) (.resp 200 "b" (some "out")) (.ok ())).2.1 "  "
      (by decide)).1
  · exact (terminal_exit_codes "Calm" "m" "u" "speech" "f.txt" "T1" "T2"
      none (.exn "x") (.ok ())).2.2.1 "hi" (Term.modelNotFoundMsg "m" "u" [])
      (by decide) (by decide)
  · exact (terminal_exit_codes "Calm" "m" "u" "speech" "f.txt" "T1" "T2"
      (some (200, ["m"])) (.resp 200 "b" (some "out"))
      (.error "boom")).2.2.2.1 "hi" "out" "boom" (by decide) (by decide) rfl
  · exact (terminal_exit_codes "Calm" "m" "u" "speech" "f.txt" "T1" "T2"
      (some (200, ["m"])) (.resp 200 "b" (some "out"))
      (.ok ())).2.2.2.2 "hi" "out" (by decide) (by decide) rfl

/-! ### Claim theorems about the past-narrations listing -/

theorem pastNarrations_names (files : List String) (store : String → MetaFile) :
    (pastNarrations files store).map Prod.fst
      = (sortDesc (files.filter globSpeechMp3)).take 20 := by
  have hcomp : (Prod.fst ∘ fun n : String => (n, metaBestEffort store n))
      = fun n : String => n := by
    funext n
    rfl
  simp [pastNarrations, List.map_map, hcomp]

theorem sortDesc_pairwise (l : List String) :
    (sortDesc l).Pairwise (fun a b => strGe a b = true) := by
  haveI : IsTotal String (fun a b => strGe a b = true) := ⟨strGe_total⟩
  haveI : IsTrans String (fun a b => strGe a b = true) := ⟨strGe_trans⟩
  exact List.sorted_insertionSort _ l

/-- C7 counterexample: the listing sorts by full filename in reverse
lexicographic order, so with two tones the entry with the strictly
older timestamp can be listed first: here the Urgent narration of
2025-01-01 precedes the Calm narration of 2025-01-02. -/
theorem listing_order_counterexample :
    (pastNarrations ["speech_Urgent_20250101-000000.mp3",
        "speech_Calm_20250102-000000.mp3"] (fun _ => MetaFile.absent)).map Prod.fst
      = ["speech_Urgent_20250101-000000.mp3", "speech_Calm_20250102-000000.mp3"]
    ∧ tsOfName "speech_Urgent_20250101-000000.mp3" = "20250101-000000"
    ∧ tsOfName "speech_Calm_20250102-000000.mp3" = "20250102-000000"
    ∧ lexLt "20250101-000000".data "20250102-000000".data = true := by
  exact ⟨by decide, by decide, by decide, by decide⟩

/-- C7 (amended): the listing shows the glob matches sorted by
filename in descending lexicographic order (which coincides with
newest-first by timestamp only among files sharing the same prefix
and tone segment), truncated to 20; the sort is a permutation of the
matching files so no entry is dropped; which entries appear does not
depend on the metadata store, and each entry carries its parsed
metadata exactly when its derived metadata file exists and parses
(missing or corrupt metadata leaves the entry listed without
metadata). -/
theorem listing_amended (files : List String) (store : String → MetaFile) :
    pastNarrations files store
      = ((sortDesc (files.filter globSpeechMp3)).take 20).map
          (fun n => (n, metaBestEffort store n))
    ∧ ((pastNarrations files store).map Prod.fst).Pairwise
        (fun a b => strGe a b = true)
    ∧ (sortDesc (files.filter globSpeechMp3)).Perm (files.filter globSpeechMp3)
    ∧ (∀ store2 : String → MetaFile,
        (pastNarrations files store2).map Prod.fst
          = (pastNarrations files store).map Prod.fst) := by
  refine ⟨rfl, ?_, ?_, ?_⟩
  · rw [pastNarrations_names]
    exact (sortDesc_pairwise (files.filter globSpeechMp3)).sublist
      (List.take_sublist 20 _)
  · exact List.perm_insertionSort _ _
  · intro store2
    rw [pastNarrations_names, pastNarrations_names]

/-- C10: the listing never shows more than 20 entries; it shows
exactly the first 20 filenames of the descending sort order, so when
more than 20 artifacts match, the remaining ones are omitted. -/
theorem listing_truncates_to_twenty (files : List String) (store : String → MetaFile) :
    (pastNarrations files store).length
      = min 20 (sortDesc (files.filter globSpeechMp3)).length
    ∧ (pastNarrations files store).map Prod.fst
      = (sortDesc (files.filter globSpeechMp3)).take 20
    ∧ (pastNarrations files store).length ≤ 20 := by
  refine ⟨?_, pastNarrations_names files store, ?_⟩
  · simp [pastNarrations]
  · simp [pastNarrations]
